import Mathlib

/-
Shallow embedding of the ApiCodeHelper conversational gateway.

Source files embedded:
  welcome/programming_helper_chatbot.py  (main endpoint `programming_helper_send_message`,
    helpers `_build_messages`, `_assemble_code_context`, `_language_directive`,
    model constants and the provider dispatch chain)
  welcome/chatbot_utils.py               (`_conversation_key`, `_conversation_dump`)
  welcome/GLOBALS_AND_WORKING.py         (the CONVERSATIONS map; the global LOCK is
    represented by the handler being an atomic state transformer)
  welcome/models.py                      (the Persona entity, read through an abstract
    primary-key lookup `personaDb`)

Modelling conventions:
  - Python strings are Lean `String`s; the operations used by the source
    (`strip`, `lower`, slicing, `len`, `join`, `startswith`) are defined
    structurally on the underlying character list so that everything is
    executable and kernel-reducible.
  - The process-global dict CONVERSATIONS is threaded explicitly as an
    association list with Python-dict semantics (insertion order kept,
    `setdefault` appends a fresh binding at the end, `pop` removes it).
  - `collections.deque(maxlen=n)` is a `BoundedDeque`: appending to a full
    deque drops the oldest element first.
  - The Django request is (method, optional parsed JSON body); a body that is
    not valid JSON is `none`.  A `persona_id` value that is not an integer is
    modelled as an absent field (both lead to the default sentinel).
  - External effects (HTTP calls to providers, the Persona table, Python's
    randomized `hash` of the topic tuple) live in an `Env` record.  A provider
    call is recorded as a `ProviderCall` value carrying the data the source
    puts in the request payload, and returns `Except String String`
    (`.error` models any exception raised by the call).
  - An exception escaping the view function (in particular the
    `persona_obj.nome` attribute access on `None` in the final JsonResponse)
    is the `HttpResult.crash` outcome; the store mutations performed before
    that line are kept, exactly as in the source.
-/

/-- ASCII apostrophe, kept out of string literals. -/
def apos : String := String.singleton (Char.ofNat 39)

/-- Python `x or default` for an optional string field: `None` and `""` are falsy. -/
def pyOr (o : Option String) (d : String) : String :=
  match o with
  | none => d
  | some s => if s = "" then d else s

/-- Python `str.lower()` (ASCII-faithful). -/
def pyLower (s : String) : String := String.mk (s.data.map Char.toLower)

/-- Characters stripped by Python `str.strip()` (ASCII whitespace). -/
def stripChars (l : List Char) : List Char :=
  ((l.dropWhile Char.isWhitespace).reverse.dropWhile Char.isWhitespace).reverse

/-- Python `str.strip()`. -/
def pyStrip (s : String) : String := String.mk (stripChars s.data)

/-- Python `s[:n]` character slicing. -/
def pyTake (s : String) (n : Nat) : String := String.mk (s.data.take n)

/-- Python `s.startswith(p)`. -/
def pyStartsWith (s p : String) : Bool := List.isPrefixOf p.data s.data

/-- Python `sep.join(parts)`. -/
def joinSep (sep : String) : List String → String
  | [] => ""
  | [x] => x
  | x :: xs => x ++ sep ++ joinSep sep xs

/-- Python `"".join(parts)`. -/
def strJoin : List String → String
  | [] => ""
  | x :: xs => x ++ strJoin xs

/-- Total length of a list of strings. -/
def lenSum (l : List String) : Nat := (l.map String.length).sum

/-- welcome/models.py: the Persona model (fields in source order). -/
structure Persona where
  nome : String
  versione : String
  contenuto : String
  inglese : Bool
  ristretto : Bool
  esperienze : Option String
deriving DecidableEq

/-- One entry of the request's `snippets` list (dict fields read with `.get`). -/
structure Snippet where
  filename : Option String
  language : Option String
  content : Option String
deriving DecidableEq

/-- The parsed JSON body of a request.  `localVal` embeds the `local` field
(`local` is a Lean keyword).  Absent dict keys are `none`. -/
structure RequestData where
  message : Option String
  localVal : Option String
  size : Option String
  verbosity : Option String
  lang : Option String
  character : Option String
  topic : Option String
  persona_id : Option Int
  snippets : List Snippet
  project_context : Option String
deriving DecidableEq

/-- A turn of a conversation: (role, text), as stored in CONVERSATIONS. -/
abbrev Turn := String × String

/-- Key of the CONVERSATIONS dict: (character-or-anonymous, persona id). -/
abbrev ConvKey := String × Int

/-- `collections.deque(maxlen=...)` holding conversation turns. -/
structure BoundedDeque where
  maxlen : Nat
  items : List Turn
deriving DecidableEq

/-- Append to a bounded deque; the Bool reports whether the oldest turn was
evicted (deque at capacity). -/
def dequeAppendE (d : BoundedDeque) (t : Turn) : BoundedDeque × Bool :=
  if d.items.length < d.maxlen then (BoundedDeque.mk d.maxlen (d.items ++ [t]), false)
  else (BoundedDeque.mk d.maxlen ((d.items ++ [t]).drop (d.items.length + 1 - d.maxlen)), true)

/-- Append to a bounded deque (eviction flag dropped). -/
def dequeAppend (d : BoundedDeque) (t : Turn) : BoundedDeque :=
  (dequeAppendE d t).1

/-- The CONVERSATIONS dict, as an insertion-ordered association list. -/
abbrev ConvState := List (ConvKey × BoundedDeque)

/-- Dict lookup. -/
def lookupConv : ConvState → ConvKey → Option BoundedDeque
  | [], _ => none
  | (k, d) :: rest, key => if k = key then some d else lookupConv rest key

/-- Dict assignment `m[key] = d` (updates in place, or appends a new binding). -/
def setVal : ConvState → ConvKey → BoundedDeque → ConvState
  | [], key, d => [(key, d)]
  | (k, d0) :: rest, key, d =>
    if k = key then (k, d) :: rest else (k, d0) :: setVal rest key d

/-- Dict `m.pop(key, None)`. -/
def popKey : ConvState → ConvKey → ConvState
  | [], _ => []
  | (k, d) :: rest, key => if k = key then rest else (k, d) :: popKey rest key

/-- Dict `m.setdefault(key, deque(maxlen=maxlen))`: returns the binding (existing
or fresh) together with the possibly-extended dict. -/
def setdefaultConv (convs : ConvState) (key : ConvKey) (maxlen : Nat) :
    BoundedDeque × ConvState :=
  match lookupConv convs key with
  | some d => (d, convs)
  | none => (BoundedDeque.mk maxlen [], convs ++ [(key, BoundedDeque.mk maxlen [])])

/-- Number of user-role turns in a log
(`sum(1 for role, _ in history if role == "user")`). -/
def userCount (l : List Turn) : Nat := (l.filter (fun rt => rt.1 = "user")).length

/-- Number of assistant-role turns in a log. -/
def assistantCount (l : List Turn) : Nat :=
  (l.filter (fun rt => rt.1 = "assistant")).length

/-- User-role turn count of the log stored at `key` (0 when the key is absent). -/
def userTurnsAt (convs : ConvState) (key : ConvKey) : Nat :=
  match lookupConv convs key with
  | none => 0
  | some d => userCount d.items

/-- Items of the log stored at `key` ([] when the key is absent). -/
def logItemsAt (convs : ConvState) (key : ConvKey) : List Turn :=
  match lookupConv convs key with
  | none => []
  | some d => d.items

/-- welcome/chatbot_utils.py `_conversation_key`: `(character or "anonymous", persona_pk)`. -/
def _conversation_key (character : String) (persona_pk : Int) : ConvKey :=
  (if character = "" then "anonymous" else character, persona_pk)

/-- Bucket of a dump result (`result[nome]`, [] when absent). -/
def bucketOf : List (String × List Turn) → String → List Turn
  | [], _ => []
  | (n, l) :: rest, m => if n = m then l else bucketOf rest m

/-- `result.setdefault(nome, []).extend(turns)` on the dump accumulator. -/
def extendAt (acc : List (String × List Turn)) (nome : String) (turns : List Turn) :
    List (String × List Turn) :=
  match acc with
  | [] => [(nome, turns)]
  | (n, l) :: rest =>
    if n = nome then (n, l ++ turns) :: rest else (n, l) :: extendAt rest nome turns

/-- One iteration of the `_conversation_dump` loop body. -/
def dumpStep (db : Int → Option Persona) (filt : String)
    (result : List (String × List Turn)) (entry : ConvKey × BoundedDeque) :
    List (String × List Turn) :=
  if entry.1.1 ≠ filt then result
  else
    match db entry.1.2 with
    | none => result
    | some persona => extendAt result persona.nome entry.2.items

/-- welcome/chatbot_utils.py `_conversation_dump`: per-persona-name view of all
logs whose character component matches; persona ids that do not resolve are
silently skipped. -/
def _conversation_dump (db : Int → Option Persona) (character : String)
    (convs : ConvState) : List (String × List Turn) :=
  convs.foldl (dumpStep db (if character = "" then "anonymous" else character)) []

/-- Default persona id used when none is specified (sentinel "no persona"). -/
def PROGRAMMING_HELPER_PERSONA_ID : Int := -42042

/-- Token budget constant CONTEXT_STANDARD. -/
def CONTEXT_STANDARD : Nat := 2500

/-- Token budget constant CONTEXT_ASSISTANT (used as the provider token limit). -/
def CONTEXT_ASSISTANT : Nat := 10000

/-- Ollama model constants. -/
def OLLAMA_QWEN_BASE : String := "qwen3:8b"

/-- Ollama size-m model. -/
def OLLAMA_MISTRAL : String := "mistral"

/-- Ollama size-l and size-r model. -/
def OLLAMA_QWEN_14 : String := "huihui_ai/qwen2.5-abliterate:14b"

/-- Mistral model constants. -/
def MISTRAL_MODEL_S : String := "mistral-small-latest"

/-- Mistral size-m model. -/
def MISTRAL_MODEL_M : String := "mistral-medium-latest"

/-- Mistral size-l model. -/
def MISTRAL_MODEL_L : String := "mistral-large-latest"

/-- Mistral size-r model. -/
def MISTRAL_MODEL_R : String := "magistral-medium-latest"

/-- OpenAI model constants. -/
def OPENAI_MODEL_S : String := "gpt-5-mini"

/-- OpenAI size-m and size-l model. -/
def OPENAI_MODEL_L : String := "gpt-5-chat-latest"

/-- OpenAI size-r model. -/
def OPENAI_MODEL_R : String := "gpt-5"

/-- Default verbosity value. -/
def DEFAULT_VERBOSITY : String := "medium"

/-- OpenRouter model constants. -/
def OPENROUTER_MODEL_S : String := "mistralai/mistral-small-3.2-24b-instruct"

/-- OpenRouter size-m model. -/
def OPENROUTER_MODEL_M : String := "thedrummer/anubis-70b-v1.1"

/-- OpenRouter size-l and size-r model. -/
def OPENROUTER_MODEL_L : String := "deepseek/deepseek-chat-v3-0324"

/-- The built-in system prompt (the source's triple-quoted literal with
`.strip()` applied; apostrophes and dashes in the original are the Unicode
characters U+2019 and U+2013, reproduced verbatim). -/
def PROGRAMMING_HELPER_SYSTEM : String := "You are **Programming Helper**, a senior software engineer and ruthless code reviewer.
Be pragmatic, precise, and *useful*. Favor actionable fixes over theory.

## Language
- Default to the **user’s language** (Italian/English) unless `lang` is specified.
- Keep tone professional, concise, and direct.

## How to answer
1) If code is provided: 
   - Briefly summarize what it does (1–2 lines).
   - Identify the likely issue(s) or design smells.
   - Propose the **minimal** fix first; then list alternatives (with trade-offs).
   - Provide **runnable code** or **unified diffs** in fenced blocks.
   - Include imports and any required config.
2) If the ask is ambiguous:
   - Ask **at most 1–2 clarifying questions** *only if* they block progress.
   - Otherwise, state assumptions and proceed.
3) When changing files:
   - Prefer `diff` format (unified) or a full updated file in one block.
4) Testing & safety:
   - Include a quick test or command to verify the fix (pytest, curl, CLI, etc.).
   - Warn about destructive commands. Never fabricate results.

## Formatting
- Use markdown. Label code fences with the language (```python, ```js, ```diff).
- Use short paragraphs and bullet points. No fluff.

## Limits
- If you don’t know, say so and suggest how to find out.
- Don’t hallucinate APIs or versions; call them out as *assumptions* if uncertain."

/-- `_build_messages`: system message first, then every stored turn in order. -/
def _build_messages (history : List Turn) (system_prompt : String) :
    List (String × String) :=
  ("system", system_prompt) :: history

/-- The wrapper line opening the auxiliary context block. -/
def auxHeader : String :=
  "Auxiliary code/context provided by the user (treat as source of truth when relevant):\n"

/-- The wrapper line closing the auxiliary context block. -/
def auxFooter : String := "\nEnd of auxiliary context.\n"

/-- Marker appended when a snippet block is cut to the remaining budget. -/
def truncationMarker : String := "\n[...truncated]\n"

/-- Notice appended when the budget is already exhausted before a block. -/
def truncationNotice : String := "\n[Truncated additional code due to size limit]"

/-- The snippet loop of `_assemble_code_context`: renders each snippet with a
non-empty content as a fenced block, enforcing the running character budget
over the blocks; returns the list of appended parts.  (The source's
`total = max_chars + 1` after a truncation is dead code: both truncation
branches `break`.) -/
def assembleLoop (max_chars : Nat) : List Snippet → Nat → List String
  | [], _ => []
  | sn :: rest, total =>
    let name := pyStrip (pyOr sn.filename "snippet")
    let lang := pyStrip (pyOr sn.language "")
    let code := pyStrip (pyOr sn.content "")
    if code = "" then assembleLoop max_chars rest total
    else
      let header := "\n--- BEGIN FILE: " ++ name ++ " ---\n"
      let fence_open := if lang = "" then "```\n" else "```" ++ lang ++ "\n"
      let block := header ++ fence_open ++ code ++ "\n```\n--- END FILE ---\n"
      if max_chars < total + block.length then
        if max_chars ≤ total then [truncationNotice]
        else [pyTake block (max_chars - total) ++ truncationMarker]
      else block :: assembleLoop max_chars rest (total + block.length)

/-- `_assemble_code_context`: optional project-context part, then the
budget-limited snippet blocks, inside the fixed wrapper text.  The source
gives `max_chars` the default value 12000; the handler calls it with that
default. -/
def _assemble_code_context (snippets : List Snippet) (project_context : String)
    (max_chars : Nat) : String :=
  if snippets = [] ∧ project_context = "" then ""
  else
    let parts :=
      (if project_context ≠ "" then ["Project context:\n" ++ pyStrip project_context]
       else []) ++ assembleLoop max_chars snippets 0
    auxHeader ++ strJoin parts ++ auxFooter

/-- `_language_directive` (the handler always passes a string; Python's `None`
case coincides with the empty string, which is also falsy). -/
def _language_directive (lang : String) : String :=
  if lang = "" ∨ pyLower lang = "auto" ∨ pyLower lang = "detect" ∨ pyLower lang = "same" then
    "Reply in the same language as the user" ++ apos ++ "s last message (Italian or English)."
  else if pyStartsWith (pyLower lang) "it" then "Reply in Italian."
  else if pyStartsWith (pyLower lang) "en" then "Reply in English."
  else "Reply in the same language as the user" ++ apos ++ "s last message."

/-- Data the source puts into a provider HTTP request: provider name, resolved
model, chat message list (empty for Ollama), flat prompt (Ollama only) and the
combined system prompt.  Payload scalars that never influence the handler's
result (temperature, token limits, verbosity, streaming flags) are not
modelled. -/
structure ProviderCall where
  provider : String
  model : String
  messages : List (String × String)
  prompt : String
  system : String
deriving DecidableEq

/-- The environment of one request: library availability, API keys from the
environment, the Persona table (`Persona.objects.get(pk=...)`), Python's
`hash(("ph", topic))` as a function of the topic, and the network (a provider
call either returns a reply text or raises). -/
structure Env where
  requestsAvailable : Bool
  openaiAvailable : Bool
  mistralApiKey : Option String
  openaiApiKey : Option String
  openrouterApiKey : Option String
  personaDb : Int → Option Persona
  pyHash : String → Int
  netCall : ProviderCall → Except String String

/-- Ollama tier→model table (`dict.get(size, OLLAMA_QWEN_14)`). -/
def ollamaModel (size : String) : String :=
  if size = "s" then OLLAMA_QWEN_BASE
  else if size = "m" then OLLAMA_MISTRAL
  else if size = "l" then OLLAMA_QWEN_14
  else if size = "r" then OLLAMA_QWEN_14
  else OLLAMA_QWEN_14

/-- Mistral tier→model table (`dict.get(size, MISTRAL_MODEL_M)`). -/
def mistralModel (size : String) : String :=
  if size = "s" then MISTRAL_MODEL_S
  else if size = "m" then MISTRAL_MODEL_M
  else if size = "l" then MISTRAL_MODEL_L
  else if size = "r" then MISTRAL_MODEL_R
  else MISTRAL_MODEL_M

/-- OpenAI tier→model table (`dict.get(size, OPENAI_MODEL_L)`). -/
def openaiModel (size : String) : String :=
  if size = "s" then OPENAI_MODEL_S
  else if size = "m" then OPENAI_MODEL_L
  else if size = "l" then OPENAI_MODEL_L
  else if size = "r" then OPENAI_MODEL_R
  else OPENAI_MODEL_L

/-- OpenRouter tier→model table (`dict.get(size, OPENROUTER_MODEL_S)`). -/
def openrouterModel (size : String) : String :=
  if size = "s" then OPENROUTER_MODEL_S
  else if size = "m" then OPENROUTER_MODEL_M
  else if size = "l" then OPENROUTER_MODEL_L
  else if size = "r" then OPENROUTER_MODEL_L
  else OPENROUTER_MODEL_S

/-- Outcome of the provider dispatch chain: a reply or an error response, in
both cases with the list of network calls that were attempted. -/
inductive DispatchOut where
  | ok (reply : String) (calls : List ProviderCall)
  | err (status : Nat) (msg : String) (calls : List ProviderCall)
deriving DecidableEq

/-- The `if local == ... elif ... else` provider chain of the handler.  Each
branch checks its library/credential availability before any network call;
an exception from the call is converted to a 500 error with the
provider-specific message; an unknown provider name is a 400 with no call. -/
def dispatchProvider (env : Env) (localv size verbosity : String)
    (history : List Turn) (prompt_for_ollama combined_system : String) : DispatchOut :=
  if localv = "ollama" then
    if env.requestsAvailable = false then
      DispatchOut.err 500 "requests library not installed" []
    else
      let call := ProviderCall.mk "ollama" (ollamaModel size) [] prompt_for_ollama combined_system
      match env.netCall call with
      | Except.ok reply => DispatchOut.ok reply [call]
      | Except.error exc => DispatchOut.err 500 ("Ollama call failed: " ++ exc) [call]
  else if localv = "mistral" then
    if env.requestsAvailable = false then
      DispatchOut.err 500 "requests library not installed" []
    else if pyOr env.mistralApiKey "" = "" then
      DispatchOut.err 500 "MISTRAL_API_KEY not set" []
    else
      let call := ProviderCall.mk "mistral" (mistralModel size)
        (_build_messages history combined_system) "" combined_system
      match env.netCall call with
      | Except.ok reply => DispatchOut.ok reply [call]
      | Except.error exc => DispatchOut.err 500 ("Mistral API call failed: " ++ exc) [call]
  else if localv = "openai" then
    if env.openaiAvailable = false then
      DispatchOut.err 500 "openai library not installed" []
    else if pyOr env.openaiApiKey "" = "" then
      DispatchOut.err 500 "OpenAI API key is empty" []
    else
      let call := ProviderCall.mk "openai" (openaiModel size)
        (_build_messages history combined_system) "" combined_system
      match env.netCall call with
      | Except.ok reply => DispatchOut.ok reply [call]
      | Except.error exc => DispatchOut.err 500 ("OpenAI API call failed: " ++ exc) [call]
  else if localv = "openrouter" then
    if env.requestsAvailable = false then
      DispatchOut.err 500 "requests library not installed" []
    else if pyOr env.openrouterApiKey "" = "" then
      DispatchOut.err 500 "OPENROUTER_API_KEY not set" []
    else
      let call := ProviderCall.mk "openrouter" (openrouterModel size)
        (_build_messages history combined_system) "" combined_system
      match env.netCall call with
      | Except.ok reply => DispatchOut.ok reply [call]
      | Except.error exc => DispatchOut.err 500 ("OpenRouter API call failed: " ++ exc) [call]
  else
    DispatchOut.err 400 ("Unknown local value " ++ apos ++ localv ++ apos) []

/-- `(data.get("message") or "").strip()`. -/
def reqMessage (data : RequestData) : String := pyStrip (pyOr data.message "")

/-- `(data.get("local") or "ollama").strip().lower()`. -/
def reqLocal (data : RequestData) : String := pyLower (pyStrip (pyOr data.localVal "ollama"))

/-- `(data.get("size") or "m").strip().lower()`. -/
def reqSize (data : RequestData) : String := pyLower (pyStrip (pyOr data.size "m"))

/-- `(data.get("verbosity") or DEFAULT_VERBOSITY).lower()`, normalized to the
allowed set. -/
def reqVerbosity (data : RequestData) : String :=
  let v := pyLower (pyOr data.verbosity DEFAULT_VERBOSITY)
  if v = "low" ∨ v = "medium" ∨ v = "high" then v else DEFAULT_VERBOSITY

/-- `(data.get("lang") or "auto").strip().lower()`. -/
def reqLang (data : RequestData) : String := pyLower (pyStrip (pyOr data.lang "auto"))

/-- `(data.get("character") or "developer").strip()`. -/
def reqCharacter (data : RequestData) : String := pyStrip (pyOr data.character "developer")

/-- `(data.get("topic") or "").strip()`. -/
def reqTopic (data : RequestData) : String := pyStrip (pyOr data.topic "")

/-- The persona try/except block: the sentinel keeps `persona_obj = None`; a
non-sentinel id is looked up, and a failed lookup (`Persona.DoesNotExist`)
falls back to the sentinel with no persona. -/
def resolvePersona (env : Env) (data : RequestData) : Int × Option Persona :=
  let pid := data.persona_id.getD PROGRAMMING_HELPER_PERSONA_ID
  if pid ≠ PROGRAMMING_HELPER_PERSONA_ID then
    match env.personaDb pid with
    | some p => (pid, some p)
    | none => (PROGRAMMING_HELPER_PERSONA_ID, none)
  else (pid, none)

/-- The persona id actually used for the conversation key: when a topic is
given and no persona resolved, `persona_id = -(100000 + abs(hash(("ph",
topic))) % 10**6)`. -/
def reqPersonaId (env : Env) (data : RequestData) : Int :=
  if reqTopic data ≠ "" ∧ (resolvePersona env data).2 = none then
    -(100000 + (((env.pyHash (reqTopic data)).natAbs % 1000000 : Nat) : Int))
  else (resolvePersona env data).1

/-- The conversation key derived by the handler. -/
def reqKey (env : Env) (data : RequestData) : ConvKey :=
  _conversation_key (reqCharacter data) (reqPersonaId env data)

/-- `MAX_USER_MESSAGES = 200 if (character.lower() == "master") else 24`. -/
def maxUserMessages (character : String) : Nat :=
  if pyLower character = "master" then 200 else 24

/-- The response produced by one request: a success JsonResponse (its stable
fields), the reset JsonResponse, an error JsonResponse with its HTTP status,
or an exception escaping the view function. -/
inductive HttpResult where
  | success (reply : String) (conversations : List (String × List Turn))
  | resetOk
  | httpError (status : Nat) (msg : String)
  | crash (msg : String)
deriving DecidableEq

/-- HTTP status of a result (JsonResponse defaults to 200; an uncaught
exception produces no JsonResponse at all). -/
def resultStatus : HttpResult → Option Nat
  | HttpResult.success _ _ => some 200
  | HttpResult.resetOk => some 200
  | HttpResult.httpError st _ => some st
  | HttpResult.crash _ => none

/-- Everything observable about one handler invocation: the response, the
CONVERSATIONS state afterwards, the provider calls attempted, and how many
appends evicted an oldest turn. -/
structure StepOut where
  result : HttpResult
  convs : ConvState
  calls : List ProviderCall
  evictions : Nat
deriving DecidableEq

/-- The endpoint `programming_helper_send_message`, as an atomic transformer of
the CONVERSATIONS state (all store accesses in the source happen under the one
global LOCK).  Control flow mirrors the source: method check, JSON parse,
message validation, key derivation, reset, turn cap with user-turn append,
prompt assembly, provider dispatch, assistant-turn append, response assembly.
The final JsonResponse of the source also carries `debug_prompt` and a
`persona_debug` block that reads `persona_obj.nome` without a None-check:
with no persona object that attribute access raises, which is the `crash`
outcome (after the store was already mutated). -/
def programming_helper_send_message (env : Env) (method : String)
    (body : Option RequestData) (convs : ConvState) : StepOut :=
  if method ≠ "POST" then
    StepOut.mk (HttpResult.httpError 400 "Invalid request method.") convs [] 0
  else
    match body with
    | none => StepOut.mk (HttpResult.httpError 400 "Invalid JSON") convs [] 0
    | some data =>
      if reqMessage data = "" then
        StepOut.mk (HttpResult.httpError 400 "Message required.") convs [] 0
      else if pyLower (reqMessage data) = "reset" then
        StepOut.mk HttpResult.resetOk (popKey convs (reqKey env data)) [] 0
      else
        let MAXU := maxUserMessages (reqCharacter data)
        let sd := setdefaultConv convs (reqKey env data) (MAXU * 2)
        if MAXU ≤ userCount sd.1.items then
          StepOut.mk (HttpResult.httpError 403 "Turn limit reached.") sd.2 [] 0
        else
          let ap := dequeAppendE sd.1 ("user", reqMessage data)
          let convs2 := setVal sd.2 (reqKey env data) ap.1
          let prompt_for_ollama :=
            joinSep "\n" (ap.1.items.map (fun rt => rt.1 ++ ": " ++ rt.2))
          let combined_system := pyStrip
            ((match (resolvePersona env data).2 with
              | some p =>
                match p.esperienze with
                | some e =>
                  if e ≠ "" then p.contenuto ++ "\n\nEsperienze:\n" ++ e else p.contenuto
                | none => p.contenuto
              | none => PROGRAMMING_HELPER_SYSTEM)
             ++ "\n\n" ++ _language_directive (reqLang data) ++ "\n\n"
             ++ _assemble_code_context data.snippets (pyOr data.project_context "") 12000)
          match dispatchProvider env (reqLocal data) (reqSize data) (reqVerbosity data)
              ap.1.items prompt_for_ollama combined_system with
          | DispatchOut.err st msg calls =>
            StepOut.mk (HttpResult.httpError st msg) convs2 calls (if ap.2 then 1 else 0)
          | DispatchOut.ok reply calls =>
            let ap2 := dequeAppendE ap.1 ("assistant", reply)
            let convs3 := setVal convs2 (reqKey env data) ap2.1
            match (resolvePersona env data).2 with
            | none =>
              StepOut.mk
                (HttpResult.crash ("AttributeError: " ++ apos ++ "NoneType" ++ apos
                  ++ " object has no attribute " ++ apos ++ "nome" ++ apos))
                convs3 calls ((if ap.2 then 1 else 0) + (if ap2.2 then 1 else 0))
            | some _ =>
              StepOut.mk
                (HttpResult.success reply
                  (_conversation_dump env.personaDb (reqCharacter data) convs3))
                convs3 calls ((if ap.2 then 1 else 0) + (if ap2.2 then 1 else 0))

/-- CONVERSATIONS states reachable from the empty store through the gateway
handler alone. -/
inductive Reachable : ConvState → Prop where
  | init : Reachable []
  | step (env : Env) (method : String) (body : Option RequestData) (convs : ConvState) :
      Reachable convs → Reachable (programming_helper_send_message env method body convs).convs

/-- Well-formedness of one stored log with respect to its key's character
component: capacity matches the character's cap, only user/assistant roles,
user turns within the cap, assistant turns dominated by user turns. -/
def LogOk (c : String) (d : BoundedDeque) : Prop :=
  d.maxlen = maxUserMessages c * 2 ∧
  (∀ t ∈ d.items, t.1 = "user" ∨ t.1 = "assistant") ∧
  userCount d.items ≤ maxUserMessages c ∧
  assistantCount d.items ≤ userCount d.items

/-- Well-formedness of the whole store. -/
def StoreOk (convs : ConvState) : Prop := ∀ e ∈ convs, LogOk e.1.1 e.2

/-- A fully-configured environment with a chosen Persona table and network. -/
def envStub (pdb : Int → Option Persona) (net : ProviderCall → Except String String) : Env :=
  Env.mk true true (some "key1") (some "key2") (some "key3") pdb (fun _ => 0) net

/-- A concrete persona row (pk 5 in `envMario`). -/
def personaMario : Persona := Persona.mk "Mario" "1" "Sei Mario." false false none

/-- No personas; every provider call answers "hi". -/
def envHi : Env := envStub (fun _ => none) (fun _ => Except.ok "hi")

/-- No personas; every provider call answers "pong". -/
def envPong : Env := envStub (fun _ => none) (fun _ => Except.ok "pong")

/-- No personas; every provider call raises. -/
def envBoom : Env := envStub (fun _ => none) (fun _ => Except.error "boom")

/-- Persona pk 5 resolves to `personaMario`; the network is down. -/
def envMario : Env :=
  envStub (fun i => if i = 5 then some personaMario else none) (fun _ => Except.error "net down")

/-- POST body `message "hello", local "ollama"` (all other fields absent). -/
def dataHello : RequestData :=
  RequestData.mk (some "hello") (some "ollama") none none none none none none [] none

/-- POST body `message "ping", local "openrouter"`. -/
def dataPing : RequestData :=
  RequestData.mk (some "ping") (some "openrouter") none none none none none none [] none

/-- POST body `message "hello", local "mistral"`. -/
def dataMistralHello : RequestData :=
  RequestData.mk (some "hello") (some "mistral") none none none none none none [] none

/-- POST body `message "ReSeT", local "ollama"`. -/
def dataResetMixed : RequestData :=
  RequestData.mk (some "ReSeT") (some "ollama") none none none none none none [] none

/-- POST body `message "hello"` with the unknown provider name "llama3". -/
def dataUnknownLocal : RequestData :=
  RequestData.mk (some "hello") (some "llama3") none none none none none none [] none

/-- POST body `message "Reset"` with the unknown provider name "zzz". -/
def dataUnknownLocalReset : RequestData :=
  RequestData.mk (some "Reset") (some "zzz") none none none none none none [] none

/-- POST body `message "hello", local "zzz", persona_id 5`. -/
def dataUnknownLocalMario : RequestData :=
  RequestData.mk (some "hello") (some "zzz") none none none none none (some 5) [] none

/-- A log for ("developer", -42042) holding 24 user turns (cap reached). -/
def fullLog24 : BoundedDeque := BoundedDeque.mk 48 (List.replicate 24 ("user", "x"))

/-- A store whose "developer" conversation is at the turn cap. -/
def convsFull : ConvState := [(("developer", (-42042 : Int)), fullLog24)]

/-- The store after one successful "hello"/"hi" exchange from the empty store. -/
def convs1 : ConvState :=
  (programming_helper_send_message envHi "POST" (some dataHello) []).convs

/-- The single entry of `convs1`. -/
def entry1 : ConvKey × BoundedDeque :=
  (("developer", (-42042 : Int)),
   BoundedDeque.mk 48 [("user", "hello"), ("assistant", "hi")])

/-- A 13000-character snippet body. -/
def bigCode : String := String.mk (List.replicate 13000 (Char.ofNat 97))

/-- A snippet whose rendered block exceeds the 12000-character budget. -/
def bigSnippet : Snippet := Snippet.mk (some "app.py") none (some bigCode)

theorem strLen_append (a b : String) : (a ++ b).length = a.length + b.length :=
  String.length_append a b

theorem lenSum_cons (x : String) (l : List String) :
    lenSum (x :: l) = x.length + lenSum l := by
  simp [lenSum]

theorem lenSum_append (a b : List String) : lenSum (a ++ b) = lenSum a + lenSum b := by
  simp [lenSum]

theorem strJoin_length (l : List String) : (strJoin l).length = lenSum l := by
  induction l with
  | nil => rfl
  | cons x xs ih => simp [strJoin, strLen_append, ih, lenSum_cons]

theorem pyTake_length_le (s : String) (n : Nat) : (pyTake s n).length ≤ n := by
  show (s.data.take n).length ≤ n
  simp [List.length_take]

theorem stripChars_replicate (n : Nat) (c : Char) (h : c.isWhitespace = false) :
    stripChars (List.replicate n c) = List.replicate n c := by
  have hdrop : (List.replicate n c).dropWhile Char.isWhitespace = List.replicate n c := by
    cases n with
    | zero => rfl
    | succ m =>
      rw [List.replicate_succ, List.dropWhile_cons, h]
      simp
  unfold stripChars
  rw [hdrop, List.reverse_replicate, hdrop, List.reverse_replicate]

theorem bigCode_length : bigCode.length = 13000 := by
  show (List.replicate 13000 (Char.ofNat 97)).length = 13000
  exact List.length_replicate 13000 _

theorem bigCode_ne_empty : bigCode ≠ "" := by
  intro h
  have h2 := bigCode_length
  rw [h] at h2
  exact absurd h2 (by decide)

theorem pyStrip_bigCode : pyStrip bigCode = bigCode := by
  show String.mk (stripChars (List.replicate 13000 (Char.ofNat 97))) = bigCode
  rw [stripChars_replicate _ _ (by decide)]
  rfl

theorem lenSum_nil : lenSum [] = 0 := rfl

theorem lenSum_singleton (x : String) : lenSum [x] = x.length := by
  simp [lenSum]

theorem assembleLoop_cons_bound (max_chars total : Nat) (block : String)
    (rest : List Snippet) (h : total ≤ max_chars)
    (ih : ∀ t, t ≤ max_chars →
      lenSum (assembleLoop max_chars rest t) + t ≤ max_chars + truncationNotice.length) :
    lenSum (if max_chars < total + block.length then
              if max_chars ≤ total then [truncationNotice]
              else [pyTake block (max_chars - total) ++ truncationMarker]
            else block :: assembleLoop max_chars rest (total + block.length)) + total
      ≤ max_chars + truncationNotice.length := by
  have hm : truncationMarker.length = 16 := by decide
  have hn : truncationNotice.length = 46 := by decide
  split
  · split
    · rw [lenSum_singleton]
      omega
    · rw [lenSum_singleton, strLen_append]
      have htake := pyTake_length_le block (max_chars - total)
      omega
  · rw [lenSum_cons]
    rename_i hfit
    have hrec := ih (total + block.length) (by omega)
    omega

theorem assembleLoop_budget (max_chars : Nat) (sns : List Snippet) (total : Nat)
    (h : total ≤ max_chars) :
    lenSum (assembleLoop max_chars sns total) + total
      ≤ max_chars + truncationNotice.length := by
  induction sns generalizing total with
  | nil =>
    rw [show assembleLoop max_chars [] total = [] from rfl, lenSum_nil]
    omega
  | cons sn rest ih =>
    unfold assembleLoop
    dsimp only
    split
    · exact ih total h
    · exact assembleLoop_cons_bound max_chars total _ rest h ih

/-- Claim C5 (amended): `_assemble_code_context` enforces the 12000-character
budget over the snippet blocks combined — the first block that would overflow
is cut to the remaining budget with the truncation marker, or replaced by the
truncation notice when the budget is already exhausted, and no further
snippets are processed — so the combined snippet-block text never exceeds the
budget plus the truncation-notice length.  The returned string additionally
contains the fixed wrapper text and the uncounted project-context section,
which is the only correction to the claim. -/
theorem claim_C5_snippet_budget_bound (snippets : List Snippet) (project_context : String) :
    lenSum (assembleLoop 12000 snippets 0) ≤ 12000 + truncationNotice.length ∧
    (_assemble_code_context snippets project_context 12000).length ≤
      auxHeader.length
        + (if project_context = "" then 0
           else ("Project context:\n" ++ pyStrip project_context).length)
        + (12000 + truncationNotice.length) + auxFooter.length := by
  have hloop := assembleLoop_budget 12000 snippets 0 (by omega)
  constructor
  · omega
  · unfold _assemble_code_context
    split
    · simp
    · dsimp only
      rw [strLen_append, strLen_append, strJoin_length, lenSum_append]
      by_cases hpc : project_context = ""
      · rw [if_neg (fun hne => hne hpc), if_pos hpc, lenSum_nil]
        omega
      · rw [if_pos hpc, if_neg hpc, lenSum_singleton]
        omega

/-- Claim C5 counterexample: with no snippets and a 13000-character
project context, the string returned by `_assemble_code_context` under the
default 12000-character budget exceeds the budget plus the truncation-marker
length (even taking "marker" to be the longer truncation notice), because the
wrapper text and the project-context section are not counted against the
budget. -/
theorem claim_C5_budget_counterexample :
    12000 + truncationNotice.length < (_assemble_code_context [] bigCode 12000).length := by
  unfold _assemble_code_context
  rw [if_neg (by simp [bigCode_ne_empty])]
  rw [if_pos bigCode_ne_empty]
  rw [show assembleLoop 12000 [] 0 = [] from rfl, List.append_nil]
  dsimp only
  rw [show strJoin ["Project context:\n" ++ pyStrip bigCode]
        = "Project context:\n" ++ pyStrip bigCode ++ "" from rfl]
  rw [pyStrip_bigCode]
  rw [strLen_append, strLen_append, strLen_append, strLen_append, bigCode_length]
  decide

/-- Claim C1: the end-to-end POST `message "hello", local "ollama"` with a
stubbed provider answering "hi", default character "developer" and no
persona_id does NOT produce the claimed success envelope: the handler's final
JsonResponse reads `persona_obj.nome` with `persona_obj = None`, raising
AttributeError; moreover `_conversation_dump` would skip the sentinel persona
id -42042 anyway, so the dump at the mutated store is empty. -/
theorem claim_C1_default_persona_crash :
    (programming_helper_send_message envHi "POST" (some dataHello) []).result
      = HttpResult.crash ("AttributeError: " ++ apos ++ "NoneType" ++ apos
          ++ " object has no attribute " ++ apos ++ "nome" ++ apos)
    ∧ _conversation_dump envHi.personaDb "developer"
        (programming_helper_send_message envHi "POST" (some dataHello) []).convs = [] :=
  ⟨by decide, by decide⟩

/-- Claim C2: a POST with no persona_id that reaches a successful provider
reply does NOT return a JSON envelope: the view raises an uncaught
AttributeError (the `persona_debug` block dereferences the absent persona),
so no JsonResponse and no status code are produced. -/
theorem claim_C2_success_path_uncaught_exception :
    (programming_helper_send_message envPong "POST" (some dataPing) []).result
      = HttpResult.crash ("AttributeError: " ++ apos ++ "NoneType" ++ apos
          ++ " object has no attribute " ++ apos ++ "nome" ++ apos)
    ∧ resultStatus (programming_helper_send_message envPong "POST" (some dataPing) []).result
      = none :=
  ⟨by decide, by decide⟩

theorem dequeAppend_maxlen (d : BoundedDeque) (t : Turn) :
    (dequeAppend d t).maxlen = d.maxlen := by
  unfold dequeAppend dequeAppendE
  split <;> rfl

theorem dequeAppend_invariant (d : BoundedDeque) (t : Turn)
    (h : d.items.length ≤ d.maxlen) :
    (dequeAppend d t).items.length ≤ d.maxlen := by
  unfold dequeAppend dequeAppendE
  split <;> simp [List.length_drop, List.length_append] <;> omega

theorem foldl_dequeAppend_bound (ts : List Turn) (d : BoundedDeque)
    (h : d.items.length ≤ d.maxlen) :
    (ts.foldl dequeAppend d).items.length ≤ d.maxlen := by
  induction ts generalizing d with
  | nil => exact h
  | cons t ts ih =>
    rw [List.foldl_cons]
    have h1 := dequeAppend_invariant d t h
    have h2 := ih (dequeAppend d t) (by rw [dequeAppend_maxlen]; exact h1)
    rwa [dequeAppend_maxlen] at h2

theorem dequeAppend_full_fifo (d : BoundedDeque) (t : Turn)
    (hfull : d.items.length = d.maxlen) (hpos : 0 < d.maxlen) :
    (dequeAppend d t).items = d.items.tail ++ [t] := by
  unfold dequeAppend dequeAppendE
  rw [if_neg (by omega)]
  dsimp only
  rw [hfull, show d.maxlen + 1 - d.maxlen = 1 from by omega]
  rw [List.drop_append_of_le_length (by omega), List.drop_one]

/-- Claim C4: a conversation log created with capacity `MAX_USER_MESSAGES * 2`
never exceeds `2 × MaxUserMessages(character)` turns after any sequence of
appends; appending to a full deque evicts the oldest turn (FIFO); and
`MaxUserMessages` is 200 for a character whose lowercase name is "master" and
24 otherwise. -/
theorem claim_C4_log_bound_and_fifo (character : String) (ts : List Turn)
    (d : BoundedDeque) (t : Turn)
    (hfull : d.items.length = d.maxlen) (hpos : 0 < d.maxlen) :
    (ts.foldl dequeAppend (BoundedDeque.mk (maxUserMessages character * 2) [])).items.length
        ≤ 2 * maxUserMessages character
    ∧ (dequeAppend d t).items = d.items.tail ++ [t]
    ∧ (if pyLower character = "master" then maxUserMessages character = 200
       else maxUserMessages character = 24) := by
  refine ⟨?_, dequeAppend_full_fifo d t hfull hpos, ?_⟩
  · have hb := foldl_dequeAppend_bound ts
      (BoundedDeque.mk (maxUserMessages character * 2) []) (by simp)
    dsimp only at hb
    omega
  · by_cases hc : pyLower character = "master"
    · rw [if_pos hc]
      unfold maxUserMessages
      rw [if_pos hc]
    · rw [if_neg hc]
      unfold maxUserMessages
      rw [if_neg hc]

/-- Claim C4 witness: concrete instantiation for character "Master", a short
append sequence, and a full one-slot deque. -/
theorem claim_C4_witness :
    (([("user", "a"), ("assistant", "b"), ("user", "c")] : List Turn).foldl dequeAppend
        (BoundedDeque.mk (maxUserMessages "Master" * 2) [])).items.length
        ≤ 2 * maxUserMessages "Master"
    ∧ (dequeAppend (BoundedDeque.mk 1 [("user", "x")]) ("assistant", "y")).items
        = ([("user", "x")] : List Turn).tail ++ [("assistant", "y")]
    ∧ (if pyLower "Master" = "master" then maxUserMessages "Master" = 200
       else maxUserMessages "Master" = 24) :=
  claim_C4_log_bound_and_fifo "Master" ([("user", "a"), ("assistant", "b"), ("user", "c")] : List Turn)
    (BoundedDeque.mk 1 [("user", "x")]) ("assistant", "y") rfl (by decide)

/-- Claim C6: a request whose trimmed message lowercases to "reset" deletes
the whole log for the derived key and returns the reset JsonResponse at once:
no provider call is attempted, no turn-limit check runs, and no turn is
appended. -/
theorem claim_C6_reset_clears_log (env : Env) (data : RequestData) (convs : ConvState)
    (hmsg : reqMessage data ≠ "") (hreset : pyLower (reqMessage data) = "reset") :
    programming_helper_send_message env "POST" (some data) convs
      = StepOut.mk HttpResult.resetOk (popKey convs (reqKey env data)) [] 0 := by
  unfold programming_helper_send_message
  rw [if_neg (by decide)]
  dsimp only
  rw [if_neg hmsg, if_pos hreset]

/-- Claim C6 witness: the message "ReSeT" against a store holding a full
"developer" log. -/
theorem claim_C6_witness :
    reqMessage dataResetMixed ≠ ""
    ∧ pyLower (reqMessage dataResetMixed) = "reset"
    ∧ programming_helper_send_message envHi "POST" (some dataResetMixed) convsFull
        = StepOut.mk HttpResult.resetOk (popKey convsFull (reqKey envHi dataResetMixed)) [] 0 :=
  ⟨by decide, by decide,
   claim_C6_reset_clears_log envHi dataResetMixed convsFull (by decide) (by decide)⟩

theorem maxUserMessages_pos (c : String) : 0 < maxUserMessages c := by
  unfold maxUserMessages
  split <;> omega

theorem userTurnsAt_lookup_some (convs : ConvState) (key : ConvKey)
    (h : 0 < userTurnsAt convs key) : ∃ d, lookupConv convs key = some d := by
  unfold userTurnsAt at h
  cases hl : lookupConv convs key with
  | none => rw [hl] at h; simp at h
  | some d => exact ⟨d, rfl⟩

theorem setdefault_fst_userCount (convs : ConvState) (key : ConvKey) (m : Nat) :
    userCount (setdefaultConv convs key m).1.items = userTurnsAt convs key := by
  unfold setdefaultConv userTurnsAt
  cases hl : lookupConv convs key <;> rfl

/-- Claim C3: with the user-turn count of the stored log at or above
`MaxUserMessages(character)`, a non-reset request is rejected with status 403,
the store (hence the log) is left unchanged, no turn is appended and no
provider is called.  The count uses only user-role turns (`userTurnsAt`
filters on the "user" role), and check and append are one atomic critical
section (a single state-transformer branch, mirroring the single `with LOCK`
block of the source). -/
theorem claim_C3_turn_limit_rejection (env : Env) (data : RequestData) (convs : ConvState)
    (hmsg : reqMessage data ≠ "")
    (hreset : pyLower (reqMessage data) ≠ "reset")
    (hcap : maxUserMessages (reqCharacter data) ≤ userTurnsAt convs (reqKey env data)) :
    programming_helper_send_message env "POST" (some data) convs
      = StepOut.mk (HttpResult.httpError 403 "Turn limit reached.") convs [] 0 := by
  have hpos : 0 < userTurnsAt convs (reqKey env data) :=
    lt_of_lt_of_le (maxUserMessages_pos _) hcap
  obtain ⟨d, hd⟩ := userTurnsAt_lookup_some convs (reqKey env data) hpos
  have hcap2 : maxUserMessages (reqCharacter data) ≤ userCount d.items := by
    unfold userTurnsAt at hcap
    rw [hd] at hcap
    exact hcap
  unfold programming_helper_send_message
  rw [if_neg (by decide)]
  dsimp only
  rw [if_neg hmsg, if_neg hreset]
  unfold setdefaultConv
  rw [hd]
  dsimp only
  rw [if_pos hcap2]

/-- Claim C3 witness: a "developer" log already holding 24 user turns rejects
the next "hello". -/
theorem claim_C3_witness :
    reqMessage dataHello ≠ ""
    ∧ pyLower (reqMessage dataHello) ≠ "reset"
    ∧ maxUserMessages (reqCharacter dataHello) ≤ userTurnsAt convsFull (reqKey envHi dataHello)
    ∧ programming_helper_send_message envHi "POST" (some dataHello) convsFull
        = StepOut.mk (HttpResult.httpError 403 "Turn limit reached.") convsFull [] 0 :=
  ⟨by decide, by decide, by decide,
   claim_C3_turn_limit_rejection envHi dataHello convsFull (by decide) (by decide) (by decide)⟩

/-- Claim C8 counterexample: a request whose `local` is the unknown value
"zzz" but whose message is "Reset" is answered by the reset path: HTTP 200,
not a 400 validation failure (no network call is attempted, though). -/
theorem claim_C8_reset_counterexample :
    (programming_helper_send_message envHi "POST" (some dataUnknownLocalReset) []).result
      = HttpResult.resetOk
    ∧ resultStatus
        (programming_helper_send_message envHi "POST" (some dataUnknownLocalReset) []).result
      = some 200
    ∧ (programming_helper_send_message envHi "POST" (some dataUnknownLocalReset) []).calls = [] :=
  ⟨by decide, by decide, by decide⟩

/-- Claim C8 (amended): a request with an unknown `local` value (after trim
and lowercase) that reaches the provider dispatch — non-empty non-reset
message, user-turn count below the cap — receives the 400 "Unknown local
value" failure, and no network call to any provider is attempted.  (Requests
intercepted earlier — reset, turn cap, validation — are answered by those
paths instead; none of them attempts a network call either.) -/
theorem claim_C8_unknown_provider_400 (env : Env) (data : RequestData) (convs : ConvState)
    (hmsg : reqMessage data ≠ "")
    (hreset : pyLower (reqMessage data) ≠ "reset")
    (hcap : userTurnsAt convs (reqKey env data) < maxUserMessages (reqCharacter data))
    (h1 : reqLocal data ≠ "ollama") (h2 : reqLocal data ≠ "mistral")
    (h3 : reqLocal data ≠ "openai") (h4 : reqLocal data ≠ "openrouter") :
    (programming_helper_send_message env "POST" (some data) convs).result
      = HttpResult.httpError 400 ("Unknown local value " ++ apos ++ reqLocal data ++ apos)
    ∧ (programming_helper_send_message env "POST" (some data) convs).calls = [] := by
  have hcap2 : ¬ (maxUserMessages (reqCharacter data)
      ≤ userCount (setdefaultConv convs (reqKey env data)
          (maxUserMessages (reqCharacter data) * 2)).1.items) := by
    rw [setdefault_fst_userCount]
    omega
  unfold programming_helper_send_message
  rw [if_neg (by decide)]
  dsimp only
  rw [if_neg hmsg, if_neg hreset, if_neg hcap2]
  unfold dispatchProvider
  rw [if_neg h1, if_neg h2, if_neg h3, if_neg h4]
  exact ⟨rfl, rfl⟩

/-- Claim C8 witness: the unknown provider name "llama3" with a fresh store. -/
theorem claim_C8_witness :
    reqLocal dataUnknownLocal ≠ "ollama"
    ∧ (programming_helper_send_message envHi "POST" (some dataUnknownLocal) []).result
        = HttpResult.httpError 400
            ("Unknown local value " ++ apos ++ reqLocal dataUnknownLocal ++ apos)
    ∧ (programming_helper_send_message envHi "POST" (some dataUnknownLocal) []).calls = [] :=
  ⟨by decide,
   (claim_C8_unknown_provider_400 envHi dataUnknownLocal [] (by decide) (by decide) (by decide)
     (by decide) (by decide) (by decide) (by decide)).1,
   (claim_C8_unknown_provider_400 envHi dataUnknownLocal [] (by decide) (by decide) (by decide)
     (by decide) (by decide) (by decide) (by decide)).2⟩

theorem userCount_append (l1 l2 : List Turn) :
    userCount (l1 ++ l2) = userCount l1 + userCount l2 := by
  unfold userCount
  rw [List.filter_append, List.length_append]

theorem assistantCount_append (l1 l2 : List Turn) :
    assistantCount (l1 ++ l2) = assistantCount l1 + assistantCount l2 := by
  unfold assistantCount
  rw [List.filter_append, List.length_append]

theorem userCount_user_single (m : String) : userCount [("user", m)] = 1 := by
  simp [userCount]

theorem assistantCount_user_single (m : String) : assistantCount [("user", m)] = 0 := by
  simp [assistantCount]

theorem userCount_assistant_single (m : String) : userCount [("assistant", m)] = 0 := by
  simp [userCount]

theorem assistantCount_assistant_single (m : String) :
    assistantCount [("assistant", m)] = 1 := by
  simp [assistantCount]

theorem counts_length (l : List Turn)
    (h : ∀ t ∈ l, t.1 = "user" ∨ t.1 = "assistant") :
    userCount l + assistantCount l = l.length := by
  induction l with
  | nil => rfl
  | cons t ts ih =>
    have ht := h t (List.mem_cons_self t ts)
    have hts := ih (fun x hx => h x (List.mem_cons_of_mem t hx))
    unfold userCount assistantCount at hts ⊢
    rw [List.filter_cons, List.filter_cons]
    rcases ht with h1 | h1 <;> simp [h1] <;> omega

theorem logOk_length_lt_of_user_slack (c : String) (d : BoundedDeque)
    (hok : LogOk c d) (hcap : userCount d.items < maxUserMessages c) :
    d.items.length < d.maxlen := by
  obtain ⟨hmax, hroles, huc, hac⟩ := hok
  have hlen := counts_length d.items hroles
  omega

theorem lookup_mem : ∀ (convs : ConvState) (key : ConvKey) (d : BoundedDeque),
    lookupConv convs key = some d → (key, d) ∈ convs := by
  intro convs
  induction convs with
  | nil => intro key d h; simp [lookupConv] at h
  | cons e rest ih =>
    intro key d h
    obtain ⟨k, d0⟩ := e
    unfold lookupConv at h
    by_cases hk : k = key
    · rw [if_pos hk] at h
      injection h with h
      rw [← hk, ← h]
      exact List.mem_cons_self _ _
    · rw [if_neg hk] at h
      exact List.mem_cons_of_mem _ (ih key d h)

theorem lookupConv_setVal : ∀ (convs : ConvState) (key : ConvKey) (d : BoundedDeque),
    lookupConv (setVal convs key d) key = some d := by
  intro convs
  induction convs with
  | nil => intro key d; simp [setVal, lookupConv]
  | cons e rest ih =>
    intro key d
    obtain ⟨k, d0⟩ := e
    unfold setVal
    by_cases hk : k = key
    · rw [if_pos hk]
      unfold lookupConv
      rw [if_pos hk]
    · rw [if_neg hk]
      unfold lookupConv
      rw [if_neg hk]
      exact ih key d

theorem logItemsAt_after_setVal (cs1 : ConvState) (key : ConvKey) (d : BoundedDeque) :
    logItemsAt (setVal cs1 key d) key = d.items := by
  unfold logItemsAt
  rw [lookupConv_setVal]

theorem setdefault_fst_items (convs : ConvState) (key : ConvKey) (m : Nat) :
    (setdefaultConv convs key m).1.items = logItemsAt convs key := by
  unfold setdefaultConv logItemsAt
  cases hl : lookupConv convs key <;> rfl

theorem maxUserMessages_key (env : Env) (data : RequestData) :
    maxUserMessages (reqKey env data).1 = maxUserMessages (reqCharacter data) := by
  unfold reqKey _conversation_key
  dsimp only
  by_cases hc : reqCharacter data = ""
  · rw [if_pos hc, hc]
    decide
  · rw [if_neg hc]

theorem setdefault_logOk (convs : ConvState) (key : ConvKey) (m : Nat)
    (hstore : StoreOk convs) (hm : m = maxUserMessages key.1 * 2) :
    LogOk key.1 (setdefaultConv convs key m).1 := by
  unfold setdefaultConv
  cases hl : lookupConv convs key with
  | none =>
    exact ⟨hm, by simp, by simp [userCount], by simp [userCount, assistantCount]⟩
  | some d =>
    exact hstore (key, d) (lookup_mem convs key d hl)

theorem logOk_append_user (c : String) (d : BoundedDeque) (m : String)
    (hok : LogOk c d) (hcap : userCount d.items < maxUserMessages c) :
    dequeAppendE d ("user", m)
      = (BoundedDeque.mk d.maxlen (d.items ++ [("user", m)]), false)
    ∧ LogOk c (BoundedDeque.mk d.maxlen (d.items ++ [("user", m)])) := by
  have hlt := logOk_length_lt_of_user_slack c d hok hcap
  obtain ⟨hmax, hroles, huc, hac⟩ := hok
  constructor
  · unfold dequeAppendE
    rw [if_pos hlt]
  · refine ⟨hmax, ?_, ?_, ?_⟩
    · intro t ht
      rcases List.mem_append.mp ht with h | h
      · exact hroles t h
      · simp at h
        rw [h]
        left
        rfl
    · rw [userCount_append, userCount_user_single]
      omega
    · rw [userCount_append, userCount_user_single,
        assistantCount_append, assistantCount_user_single]
      omega

theorem logOk_append_assistant (c : String) (d : BoundedDeque) (r : String)
    (hok : LogOk c d) (hstrict : assistantCount d.items < userCount d.items) :
    dequeAppendE d ("assistant", r)
      = (BoundedDeque.mk d.maxlen (d.items ++ [("assistant", r)]), false)
    ∧ LogOk c (BoundedDeque.mk d.maxlen (d.items ++ [("assistant", r)])) := by
  obtain ⟨hmax, hroles, huc, hac⟩ := hok
  have hlen := counts_length d.items hroles
  have hlt : d.items.length < d.maxlen := by omega
  constructor
  · unfold dequeAppendE
    rw [if_pos hlt]
  · refine ⟨hmax, ?_, ?_, ?_⟩
    · intro t ht
      rcases List.mem_append.mp ht with h | h
      · exact hroles t h
      · simp at h
        rw [h]
        right
        rfl
    · rw [userCount_append, userCount_assistant_single]
      omega
    · rw [userCount_append, userCount_assistant_single,
        assistantCount_append, assistantCount_assistant_single]
      omega

theorem claim_C7_provider_failure_keeps_user_turn (env : Env) (data : RequestData)
    (convs : ConvState) (emsg : String)
    (hstore : StoreOk convs)
    (hmsg : reqMessage data ≠ "")
    (hreset : pyLower (reqMessage data) ≠ "reset")
    (hcap : userTurnsAt convs (reqKey env data) < maxUserMessages (reqCharacter data))
    (hlocal : reqLocal data = "ollama" ∨ reqLocal data = "mistral"
      ∨ reqLocal data = "openai" ∨ reqLocal data = "openrouter")
    (hreq : env.requestsAvailable = true) (hoai : env.openaiAvailable = true)
    (hmk : pyOr env.mistralApiKey "" ≠ "") (hok2 : pyOr env.openaiApiKey "" ≠ "")
    (hrk : pyOr env.openrouterApiKey "" ≠ "")
    (hnet : ∀ c, env.netCall c = Except.error emsg) :
    (∃ m, (programming_helper_send_message env "POST" (some data) convs).result
        = HttpResult.httpError 500 m)
    ∧ logItemsAt (programming_helper_send_message env "POST" (some data) convs).convs
        (reqKey env data)
      = logItemsAt convs (reqKey env data) ++ [("user", reqMessage data)]
    ∧ (programming_helper_send_message env "POST" (some data) convs).calls.length = 1 := by
  have hcap2 : ¬ (maxUserMessages (reqCharacter data)
      ≤ userCount (setdefaultConv convs (reqKey env data)
          (maxUserMessages (reqCharacter data) * 2)).1.items) := by
    rw [setdefault_fst_userCount]
    omega
  have hok := setdefault_logOk convs (reqKey env data)
      (maxUserMessages (reqCharacter data) * 2) hstore (by rw [maxUserMessages_key])
  have hcap3 : userCount (setdefaultConv convs (reqKey env data)
      (maxUserMessages (reqCharacter data) * 2)).1.items
      < maxUserMessages (reqKey env data).1 := by
    rw [setdefault_fst_userCount, maxUserMessages_key]
    exact hcap
  have happ := logOk_append_user (reqKey env data).1
      (setdefaultConv convs (reqKey env data) (maxUserMessages (reqCharacter data) * 2)).1
      (reqMessage data) hok hcap3
  unfold programming_helper_send_message
  rw [if_neg (by decide)]
  dsimp only
  rw [if_neg hmsg, if_neg hreset, if_neg hcap2, happ.1]
  dsimp only
  rcases hlocal with h | h | h | h
  · rw [h]
    unfold dispatchProvider
    rw [if_pos rfl, hreq, if_neg (by decide)]
    dsimp only
    rw [hnet]
    refine ⟨⟨_, rfl⟩, ?_, rfl⟩
    rw [logItemsAt_after_setVal]
    rw [setdefault_fst_items]
  · rw [h]
    unfold dispatchProvider
    rw [if_neg (by decide), if_pos rfl, hreq, if_neg (by decide), if_neg hmk]
    dsimp only
    rw [hnet]
    refine ⟨⟨_, rfl⟩, ?_, rfl⟩
    rw [logItemsAt_after_setVal]
    rw [setdefault_fst_items]
  · rw [h]
    unfold dispatchProvider
    rw [if_neg (by decide), if_neg (by decide), if_pos rfl, hoai, if_neg (by decide),
      if_neg hok2]
    dsimp only
    rw [hnet]
    refine ⟨⟨_, rfl⟩, ?_, rfl⟩
    rw [logItemsAt_after_setVal]
    rw [setdefault_fst_items]
  · rw [h]
    unfold dispatchProvider
    rw [if_neg (by decide), if_neg (by decide), if_neg (by decide), if_pos rfl, hreq,
      if_neg (by decide), if_neg hrk]
    dsimp only
    rw [hnet]
    refine ⟨⟨_, rfl⟩, ?_, rfl⟩
    rw [logItemsAt_after_setVal]
    rw [setdefault_fst_items]

theorem bucketOf_extendAt (acc : List (String × List Turn)) (n0 : String)
    (ts : List Turn) (n : String) :
    bucketOf (extendAt acc n0 ts) n
      = if n0 = n then bucketOf acc n ++ ts else bucketOf acc n := by
  induction acc with
  | nil =>
    by_cases h : n0 = n <;> simp [extendAt, bucketOf, h]
  | cons e rest ih =>
    obtain ⟨nm, l⟩ := e
    by_cases h1 : nm = n0
    · by_cases h2 : n0 = n
      · subst h1
        subst h2
        simp [extendAt, bucketOf]
      · subst h1
        simp [extendAt, bucketOf, h2]
    · by_cases h2 : nm = n
      · subst h2
        have h3 : n0 ≠ nm := fun hh => h1 hh.symm
        simp [extendAt, bucketOf, h1, h3]
      · simp [extendAt, bucketOf, h1, h2, ih]

theorem dump_foldl_mono (db : Int → Option Persona) (filt : String) :
    ∀ (convs : List (ConvKey × BoundedDeque)) (acc : List (String × List Turn))
      (n : String) (t : Turn), t ∈ bucketOf acc n →
      t ∈ bucketOf (convs.foldl (dumpStep db filt) acc) n := by
  intro convs
  induction convs with
  | nil => intro acc n t h; exact h
  | cons e rest ih =>
    intro acc n t h
    rw [List.foldl_cons]
    apply ih
    unfold dumpStep
    split
    · exact h
    · cases hdb : db e.1.2 with
      | none => exact h
      | some P =>
        rw [bucketOf_extendAt]
        by_cases hn : P.nome = n
        · rw [if_pos hn]
          exact List.mem_append_left _ h
        · rw [if_neg hn]
          exact h

theorem dump_foldl_mem (db : Int → Option Persona) (filt : String) :
    ∀ (convs : List (ConvKey × BoundedDeque)) (acc : List (String × List Turn))
      (key : ConvKey) (d : BoundedDeque) (P : Persona) (t : Turn),
      (key, d) ∈ convs → key.1 = filt → db key.2 = some P → t ∈ d.items →
      t ∈ bucketOf (convs.foldl (dumpStep db filt) acc) P.nome := by
  intro convs
  induction convs with
  | nil =>
    intro acc key d P t hmem hfilt hdb ht
    simp at hmem
  | cons e rest ih =>
    intro acc key d P t hmem hfilt hdb ht
    rw [List.foldl_cons]
    rcases List.mem_cons.mp hmem with he | he
    · apply dump_foldl_mono
      rw [← he]
      unfold dumpStep
      dsimp only
      rw [if_neg (by rw [hfilt]; exact fun hh => hh rfl)]
      rw [hdb]
      rw [bucketOf_extendAt, if_pos rfl]
      exact List.mem_append_right _ ht
    · exact ih (dumpStep db filt acc e) key d P t he hfilt hdb ht

theorem claim_C10_unknown_provider_mutates_history (env : Env) (data : RequestData)
    (convs : ConvState) (P : Persona)
    (hstore : StoreOk convs)
    (hmsg : reqMessage data ≠ "") (hreset : pyLower (reqMessage data) ≠ "reset")
    (hcap : userTurnsAt convs (reqKey env data) < maxUserMessages (reqCharacter data))
    (h1 : reqLocal data ≠ "ollama") (h2 : reqLocal data ≠ "mistral")
    (h3 : reqLocal data ≠ "openai") (h4 : reqLocal data ≠ "openrouter")
    (hdb : env.personaDb (reqKey env data).2 = some P) :
    (programming_helper_send_message env "POST" (some data) convs).result
      = HttpResult.httpError 400 ("Unknown local value " ++ apos ++ reqLocal data ++ apos)
    ∧ logItemsAt (programming_helper_send_message env "POST" (some data) convs).convs
        (reqKey env data)
      = logItemsAt convs (reqKey env data) ++ [("user", reqMessage data)]
    ∧ ("user", reqMessage data) ∈ bucketOf
        (_conversation_dump env.personaDb (reqCharacter data)
          (programming_helper_send_message env "POST" (some data) convs).convs)
        P.nome := by
  have hcap2 : ¬ (maxUserMessages (reqCharacter data)
      ≤ userCount (setdefaultConv convs (reqKey env data)
          (maxUserMessages (reqCharacter data) * 2)).1.items) := by
    rw [setdefault_fst_userCount]
    omega
  have hok := setdefault_logOk convs (reqKey env data)
      (maxUserMessages (reqCharacter data) * 2) hstore (by rw [maxUserMessages_key])
  have hcap3 : userCount (setdefaultConv convs (reqKey env data)
      (maxUserMessages (reqCharacter data) * 2)).1.items
      < maxUserMessages (reqKey env data).1 := by
    rw [setdefault_fst_userCount, maxUserMessages_key]
    exact hcap
  have happ := logOk_append_user (reqKey env data).1
      (setdefaultConv convs (reqKey env data) (maxUserMessages (reqCharacter data) * 2)).1
      (reqMessage data) hok hcap3
  unfold programming_helper_send_message
  rw [if_neg (by decide)]
  dsimp only
  rw [if_neg hmsg, if_neg hreset, if_neg hcap2, happ.1]
  dsimp only
  unfold dispatchProvider
  rw [if_neg h1, if_neg h2, if_neg h3, if_neg h4]
  refine ⟨rfl, ?_, ?_⟩
  · rw [logItemsAt_after_setVal]
    rw [setdefault_fst_items]
  · unfold _conversation_dump
    apply dump_foldl_mem
    · exact lookup_mem _ _ _ (lookupConv_setVal _ _ _)
    · rfl
    · exact hdb
    · exact List.mem_append_right _ (List.mem_singleton.mpr rfl)

/-- Claim C7 witness: a "mistral" request against a fresh store with all
credentials present and a network stub that always raises. -/
theorem claim_C7_witness :
    (∃ m, (programming_helper_send_message envBoom "POST" (some dataMistralHello) []).result
        = HttpResult.httpError 500 m)
    ∧ logItemsAt
        (programming_helper_send_message envBoom "POST" (some dataMistralHello) []).convs
        (reqKey envBoom dataMistralHello)
      = logItemsAt [] (reqKey envBoom dataMistralHello)
          ++ [("user", reqMessage dataMistralHello)]
    ∧ (programming_helper_send_message envBoom "POST" (some dataMistralHello) []).calls.length
      = 1 :=
  claim_C7_provider_failure_keeps_user_turn envBoom dataMistralHello [] "boom"
    (by intro e he; simp at he) (by decide) (by decide) (by decide)
    (Or.inr (Or.inl (by decide)))
    (by decide) (by decide) (by decide) (by decide) (by decide)
    (fun c => rfl)

/-- Claim C10 witness: the unknown provider "zzz" with persona_id 5 resolving
to `personaMario`: the 400 error leaves the orphaned user turn in the log and
in the dump bucket "Mario". -/
theorem claim_C10_witness :
    (programming_helper_send_message envMario "POST" (some dataUnknownLocalMario) []).result
      = HttpResult.httpError 400
          ("Unknown local value " ++ apos ++ reqLocal dataUnknownLocalMario ++ apos)
    ∧ logItemsAt
        (programming_helper_send_message envMario "POST" (some dataUnknownLocalMario) []).convs
        (reqKey envMario dataUnknownLocalMario)
      = logItemsAt [] (reqKey envMario dataUnknownLocalMario)
          ++ [("user", reqMessage dataUnknownLocalMario)]
    ∧ ("user", reqMessage dataUnknownLocalMario) ∈ bucketOf
        (_conversation_dump envMario.personaDb (reqCharacter dataUnknownLocalMario)
          (programming_helper_send_message envMario "POST" (some dataUnknownLocalMario) []).convs)
        personaMario.nome :=
  claim_C10_unknown_provider_mutates_history envMario dataUnknownLocalMario [] personaMario
    (by intro e he; simp at he) (by decide) (by decide) (by decide)
    (by decide) (by decide) (by decide) (by decide) (by decide)

theorem mem_popKey : ∀ (convs : ConvState) (key : ConvKey) (e : ConvKey × BoundedDeque),
    e ∈ popKey convs key → e ∈ convs := by
  intro convs
  induction convs with
  | nil => intro key e he; simp [popKey] at he
  | cons f rest ih =>
    intro key e he
    obtain ⟨k, d⟩ := f
    unfold popKey at he
    by_cases hk : k = key
    · rw [if_pos hk] at he
      exact List.mem_cons_of_mem _ he
    · rw [if_neg hk] at he
      rcases List.mem_cons.mp he with h1 | h1
      · rw [h1]
        exact List.mem_cons_self _ _
      · exact List.mem_cons_of_mem _ (ih key e h1)

theorem storeOk_popKey (convs : ConvState) (key : ConvKey) (h : StoreOk convs) :
    StoreOk (popKey convs key) :=
  fun e he => h e (mem_popKey convs key e he)

theorem mem_setVal : ∀ (convs : ConvState) (key : ConvKey) (d : BoundedDeque)
    (e : ConvKey × BoundedDeque), e ∈ setVal convs key d → e = (key, d) ∨ e ∈ convs := by
  intro convs
  induction convs with
  | nil =>
    intro key d e he
    simp [setVal] at he
    exact Or.inl he
  | cons f rest ih =>
    intro key d e he
    obtain ⟨k, d0⟩ := f
    unfold setVal at he
    by_cases hk : k = key
    · rw [if_pos hk] at he
      rcases List.mem_cons.mp he with h1 | h1
      · rw [hk] at h1
        exact Or.inl h1
      · exact Or.inr (List.mem_cons_of_mem _ h1)
    · rw [if_neg hk] at he
      rcases List.mem_cons.mp he with h1 | h1
      · exact Or.inr (by rw [h1]; exact List.mem_cons_self _ _)
      · rcases ih key d e h1 with h2 | h2
        · exact Or.inl h2
        · exact Or.inr (List.mem_cons_of_mem _ h2)

theorem storeOk_setVal (convs : ConvState) (key : ConvKey) (d : BoundedDeque)
    (h : StoreOk convs) (hd : LogOk key.1 d) : StoreOk (setVal convs key d) := by
  intro e he
  rcases mem_setVal convs key d e he with h1 | h1
  · rw [h1]
    exact hd
  · exact h e h1

theorem storeOk_setdefault_snd (convs : ConvState) (key : ConvKey) (m : Nat)
    (h : StoreOk convs) (hm : m = maxUserMessages key.1 * 2) :
    StoreOk (setdefaultConv convs key m).2 := by
  unfold setdefaultConv
  cases hl : lookupConv convs key with
  | some d => exact h
  | none =>
    intro e he
    rcases List.mem_append.mp he with h1 | h1
    · exact h e h1
    · simp at h1
      rw [h1]
      exact ⟨hm, by simp, by simp [userCount], by simp [userCount, assistantCount]⟩

theorem step_preserves (env : Env) (method : String) (body : Option RequestData)
    (convs : ConvState) (h : StoreOk convs) :
    StoreOk (programming_helper_send_message env method body convs).convs ∧
    (programming_helper_send_message env method body convs).evictions = 0 := by
  unfold programming_helper_send_message
  by_cases hm : method ≠ "POST"
  · rw [if_pos hm]
    exact ⟨h, rfl⟩
  · rw [if_neg hm]
    cases body with
    | none => exact ⟨h, rfl⟩
    | some data =>
      dsimp only
      by_cases hmsg : reqMessage data = ""
      · rw [if_pos hmsg]
        exact ⟨h, rfl⟩
      · rw [if_neg hmsg]
        by_cases hrst : pyLower (reqMessage data) = "reset"
        · rw [if_pos hrst]
          exact ⟨storeOk_popKey convs _ h, rfl⟩
        · rw [if_neg hrst]
          have hsd := storeOk_setdefault_snd convs (reqKey env data)
            (maxUserMessages (reqCharacter data) * 2) h (by rw [maxUserMessages_key])
          by_cases hcap : maxUserMessages (reqCharacter data)
              ≤ userCount (setdefaultConv convs (reqKey env data)
                (maxUserMessages (reqCharacter data) * 2)).1.items
          · rw [if_pos hcap]
            exact ⟨hsd, rfl⟩
          · rw [if_neg hcap]
            have hok := setdefault_logOk convs (reqKey env data)
              (maxUserMessages (reqCharacter data) * 2) h (by rw [maxUserMessages_key])
            have hcap3 : userCount (setdefaultConv convs (reqKey env data)
                (maxUserMessages (reqCharacter data) * 2)).1.items
                < maxUserMessages (reqKey env data).1 := by
              rw [maxUserMessages_key]
              omega
            have happ := logOk_append_user (reqKey env data).1
              (setdefaultConv convs (reqKey env data)
                (maxUserMessages (reqCharacter data) * 2)).1
              (reqMessage data) hok hcap3
            rw [happ.1]
            dsimp only
            split
            · exact ⟨storeOk_setVal _ _ _ hsd happ.2, rfl⟩
            · rename_i reply calls heq
              have happ2 := logOk_append_assistant _ _ reply happ.2 (by
                rw [userCount_append, assistantCount_append, userCount_user_single,
                  assistantCount_user_single]
                have hac := hok.2.2.2
                omega)
              rw [happ2.1]
              dsimp only
              split
              · exact ⟨storeOk_setVal _ _ _ (storeOk_setVal _ _ _ hsd happ.2) happ2.2, rfl⟩
              · exact ⟨storeOk_setVal _ _ _ (storeOk_setVal _ _ _ hsd happ.2) happ2.2, rfl⟩

theorem reachable_storeOk (convs : ConvState) (h : Reachable convs) : StoreOk convs := by
  induction h with
  | init => intro e he; simp at he
  | step env method body convs0 h0 ih => exact (step_preserves env method body convs0 ih).1

/-- Claim C9: in every store reachable through the gateway handler alone, each
log holds at most `MaxUserMessages(character)` user-role turns and no more
assistant-role turns than user-role turns; consequently a request step from a
reachable store never triggers the ring-buffer eviction (every append happens
strictly below the `2 × MaxUserMessages` capacity). -/
theorem claim_C9_no_eviction_reachable (convs : ConvState) (h : Reachable convs)
    (entry : ConvKey × BoundedDeque) (hmem : entry ∈ convs)
    (env : Env) (method : String) (body : Option RequestData) :
    userCount entry.2.items ≤ maxUserMessages entry.1.1
    ∧ assistantCount entry.2.items ≤ userCount entry.2.items
    ∧ (programming_helper_send_message env method body convs).evictions = 0 := by
  have hstore := reachable_storeOk convs h
  have hok := hstore entry hmem
  exact ⟨hok.2.2.1, hok.2.2.2, (step_preserves env method body convs hstore).2⟩

/-- Claim C9 witness: the store after one successful "hello"/"hi" exchange is
reachable; its single log satisfies the bounds and a further request evicts
nothing. -/
theorem claim_C9_witness :
    userCount entry1.2.items ≤ maxUserMessages entry1.1.1
    ∧ assistantCount entry1.2.items ≤ userCount entry1.2.items
    ∧ (programming_helper_send_message envHi "POST" (some dataHello) convs1).evictions = 0 :=
  claim_C9_no_eviction_reachable convs1
    (Reachable.step envHi "POST" (some dataHello) [] Reachable.init)
    entry1 (by decide) envHi "POST" (some dataHello)
